import Mathlib

/-!
# FloodWatchr decision pipeline — verification development

Shallow embedding of the FloodWatchr risk-scoring pipeline: the local
heuristic flood-risk scorer (`web/src/App.tsx` `computeLocalFloodRisk` and the
Cloud Functions `heuristicFloodRisk`), the trend classifier, the
remote-output validation of `callGemini`, the fence-stripping
`sanitizeJsonBlock`, the local summary templates, and the alert
dedup/dispatch loop of the dashboard.

JavaScript numbers are modelled as rationals (`ℚ`); all comparisons involved
are exact at the magnitudes used.  Values that may be `null`/`undefined` are
modelled as `Option`.  `Date.now()` is modelled by an explicit `now`
parameter threaded into every definition that reads the clock.
JavaScript string helpers (`toLowerCase`, `trim`, `includes`) are modelled
by executable character-list functions so that concrete runs reduce in the
kernel.
-/

namespace FloodWatchr

/-! ## JavaScript string primitives -/

/-- JavaScript `String.prototype.toLowerCase` (ASCII range, which is all the
source compares against). -/
def jsToLower (s : String) : String := String.mk (s.data.map Char.toLower)

/-- The whitespace class of JavaScript `trim` / regex `\s` (core characters;
the exotic Unicode spaces never appear in the fence markers or payloads the
source manipulates). -/
def wsChar (c : Char) : Bool :=
  c = ' ' || c = '\t' || c = '\n' || c = '\r' || c = '\u000B' || c = '\u000C'

/-- Drop leading whitespace. -/
def trimLeftChars (l : List Char) : List Char := l.dropWhile wsChar

/-- Drop trailing whitespace. -/
def trimRightChars (l : List Char) : List Char := (l.reverse.dropWhile wsChar).reverse

/-- JavaScript `String.prototype.trim` on character lists. -/
def trimChars (l : List Char) : List Char := trimRightChars (trimLeftChars l)

/-- JavaScript `String.prototype.trim`. -/
def jsTrim (s : String) : String := String.mk (trimChars s.data)

/-- JavaScript `String.prototype.includes` on character lists: `pat` occurs
contiguously inside `l`. -/
def containsSub (pat : List Char) : List Char → Bool
  | [] => pat.isEmpty
  | c :: rest => pat.isPrefixOf (c :: rest) || containsSub pat rest

/-! ## Risk scorer data model (`web/src/services/ai.ts`, functions source) -/

/-- `FloodRiskInput` from `services/ai.ts` / the functions source: four numeric
readings plus a trend tag (`'stable' | 'rising' | 'falling' | string`). -/
structure FloodRiskInput where
  distance_cm : ℚ
  rainfall_mm : ℚ
  humidity : ℚ
  temp : ℚ
  trend : String
deriving DecidableEq

/-- `FloodRiskResponse` as returned by `computeLocalFloodRisk` in `App.tsx`. -/
structure FloodRiskResponse where
  riskLevel : String
  explanation : String
  predictionId : String
deriving DecidableEq

/-- The `{riskLevel, explanation}` pair produced by `heuristicFloodRisk` /
`callGemini` in the Cloud Functions source. -/
structure RiskOutcome where
  riskLevel : String
  explanation : String
deriving DecidableEq

/-! ## The heuristic score

`computeLocalFloodRisk` (App.tsx lines 63–98) and `heuristicFloodRisk`
(functions source lines 243–274) share character-identical scoring logic:
a running `score` starting at 0 with sequential conditional increments.
`localFloodScore` embeds that accumulation verbatim. -/

/-- `if (d<=20) score += 3; else if (d<=50) score += 2; else if (d<=80) score += 1;` -/
def distanceStep (distance_cm : ℚ) (score : Int) : Int :=
  if distance_cm ≤ 20 then score + 3
  else if distance_cm ≤ 50 then score + 2
  else if distance_cm ≤ 80 then score + 1
  else score

/-- `if (r>=30) score += 3; else if (r>=15) score += 2; else if (r>=5) score += 1;` -/
def rainfallStep (rainfall_mm : ℚ) (score : Int) : Int :=
  if rainfall_mm ≥ 30 then score + 3
  else if rainfall_mm ≥ 15 then score + 2
  else if rainfall_mm ≥ 5 then score + 1
  else score

/-- `if (humidity >= 90) score += 1;` -/
def humidityStep (humidity : ℚ) (score : Int) : Int :=
  if humidity ≥ 90 then score + 1 else score

/-- `if (trend === 'rising') score += 2; else if (trend === 'falling') score -= 1;`
(applied to the already-lowercased trend tag). -/
def trendStep (trend : String) (score : Int) : Int :=
  if trend = "rising" then score + 2
  else if trend = "falling" then score - 1
  else score

/-- `if (temp <= 2) score += 1;` -/
def tempStep (temp : ℚ) (score : Int) : Int :=
  if temp ≤ 2 then score + 1 else score

/-- The sequential score accumulation of `computeLocalFloodRisk` /
`heuristicFloodRisk`: `let score = 0; if (...) score += 3; ...`, one step
function per source statement. -/
def localFloodScore (inputs : FloodRiskInput) : Int :=
  let score : Int := 0
  let score := distanceStep inputs.distance_cm score
  let score := rainfallStep inputs.rainfall_mm score
  let score := humidityStep inputs.humidity score
  let trend := jsToLower inputs.trend
  let score := trendStep trend score
  let score := tempStep inputs.temp score
  score

/-- `score >= 6 ? 'High' : score >= 3 ? 'Medium' : 'Low'`. -/
def floodRiskLevel (score : Int) : String :=
  if score ≥ 6 then "High" else if score ≥ 3 then "Medium" else "Low"

/-- `computeLocalFloodRisk` (App.tsx lines 63–98).  `now` is `Date.now()`
at the moment of the call: the source builds `predictionId` as
`local-${Date.now()}`. -/
def computeLocalFloodRisk (inputs : FloodRiskInput) (now : Int) : FloodRiskResponse :=
  let score := localFloodScore inputs
  let riskLevel := floodRiskLevel score
  let trend := jsToLower inputs.trend
  let explanationPieces : List String :=
    (if inputs.distance_cm ≤ 50 then ["Water level is close to the sensor"] else []) ++
    (if inputs.rainfall_mm ≥ 15 then ["Recent rainfall is heavy"] else []) ++
    (if trend = "rising" then ["Rising water trend detected"] else []) ++
    (if inputs.humidity ≥ 90 then ["Humidity remains high"] else [])
  let explanationPieces :=
    if explanationPieces = [] then ["Sensor readings remain within safe ranges"]
    else explanationPieces
  { riskLevel := riskLevel
    explanation := riskLevel ++ " risk — " ++ String.intercalate "; " explanationPieces ++ "."
    predictionId := "local-" ++ toString now }

/-- `heuristicFloodRisk` (functions source lines 243–274): identical score,
server-side explanation fragments, no prediction id (the id is the
Firestore document id assigned at persistence time). -/
def heuristicFloodRisk (inputs : FloodRiskInput) : RiskOutcome :=
  let score := localFloodScore inputs
  let riskLevel := floodRiskLevel score
  let explanationFragments : List String :=
    (if inputs.distance_cm ≤ 50 then ["Water level is close to the sensor"] else []) ++
    (if inputs.rainfall_mm ≥ 15 then ["Heavy rainfall detected in the last hour"] else []) ++
    (if jsToLower inputs.trend = "rising" then ["Recent trend indicates rising water"] else []) ++
    (if inputs.humidity ≥ 90 then ["Humidity is high, supporting persistent moisture"] else [])
  let explanationFragments :=
    if explanationFragments = [] then ["Sensor readings stay within safe thresholds"]
    else explanationFragments
  { riskLevel := riskLevel
    explanation := riskLevel ++ " risk — " ++ String.intercalate "; " explanationFragments ++ "." }

/-! ## The specification's scoring formula (refinement target for claim C1)

These definitions follow the claim's words, not the source: a five-term sum
where the trend term compares the trend tag *literally* against `'rising'`
and `'falling'`. -/

/-- Claimed distance term: `distance_cm<=20 ? +3 : distance_cm<=50 ? +2 :
distance_cm<=80 ? +1 : 0`. -/
def claimDistanceTerm (distance_cm : ℚ) : Int :=
  if distance_cm ≤ 20 then 3 else if distance_cm ≤ 50 then 2
  else if distance_cm ≤ 80 then 1 else 0

/-- Claimed rainfall term: `rainfall_mm>=30 ? +3 : rainfall_mm>=15 ? +2 :
rainfall_mm>=5 ? +1 : 0`. -/
def claimRainfallTerm (rainfall_mm : ℚ) : Int :=
  if rainfall_mm ≥ 30 then 3 else if rainfall_mm ≥ 15 then 2
  else if rainfall_mm ≥ 5 then 1 else 0

/-- Claimed humidity term: `humidity>=90 ? +1 : 0`. -/
def claimHumidityTerm (humidity : ℚ) : Int :=
  if humidity ≥ 90 then 1 else 0

/-- Claimed trend term, literal comparison as the claim states it:
`trend='rising' ? +2 : trend='falling' ? -1 : 0`. -/
def claimTrendTerm (trend : String) : Int :=
  if trend = "rising" then 2 else if trend = "falling" then -1 else 0

/-- Claimed temperature term: `temp<=2 ? +1 : 0`. -/
def claimTempTerm (temp : ℚ) : Int :=
  if temp ≤ 2 then 1 else 0

/-- The claim's score formula with the literal trend comparison. -/
def claimedScore (inputs : FloodRiskInput) : Int :=
  claimDistanceTerm inputs.distance_cm + claimRainfallTerm inputs.rainfall_mm +
    claimHumidityTerm inputs.humidity + claimTrendTerm inputs.trend +
    claimTempTerm inputs.temp

/-- The amended score formula: identical except that the trend tag is
lowercased before comparison, as the source does. -/
def amendedScore (inputs : FloodRiskInput) : Int :=
  claimDistanceTerm inputs.distance_cm + claimRainfallTerm inputs.rainfall_mm +
    claimHumidityTerm inputs.humidity + claimTrendTerm (jsToLower inputs.trend) +
    claimTempTerm inputs.temp

/-! ## Trend classifier (App.tsx dispatch effect, lines 581–586) -/

/-- The inline trend computation of the dispatch effect:
start from `'stable'`; with a previous height, `current > previous + 0.5`
is `'rising'` and `current < previous - 0.5` is `'falling'`. -/
def classifyTrend (previous : Option ℚ) (current : ℚ) : String :=
  match previous with
  | none => "stable"
  | some p =>
    if current > p + 1/2 then "rising"
    else if current < p - 1/2 then "falling"
    else "stable"

/-! ## Shared characterisation lemmas -/

lemma computeLocalFloodRisk_riskLevel (i : FloodRiskInput) (now : Int) :
    (computeLocalFloodRisk i now).riskLevel = floodRiskLevel (localFloodScore i) := rfl

lemma heuristicFloodRisk_riskLevel (i : FloodRiskInput) :
    (heuristicFloodRisk i).riskLevel = floodRiskLevel (localFloodScore i) := rfl

lemma floodRiskLevel_high_iff (s : Int) : floodRiskLevel s = "High" ↔ s ≥ 6 := by
  unfold floodRiskLevel
  split_ifs with h1 h2 <;> simp_all

lemma floodRiskLevel_medium_iff (s : Int) :
    floodRiskLevel s = "Medium" ↔ 3 ≤ s ∧ s < 6 := by
  unfold floodRiskLevel
  split_ifs with h1 h2 <;> simp_all

lemma floodRiskLevel_low_iff (s : Int) : floodRiskLevel s = "Low" ↔ s < 3 := by
  unfold floodRiskLevel
  split_ifs with h1 h2 <;> simp_all
  omega

lemma floodRiskLevel_mem (s : Int) :
    floodRiskLevel s = "Low" ∨ floodRiskLevel s = "Medium" ∨ floodRiskLevel s = "High" := by
  unfold floodRiskLevel
  split_ifs <;> simp

lemma distanceStep_eq (d : ℚ) (s : Int) : distanceStep d s = s + claimDistanceTerm d := by
  unfold distanceStep claimDistanceTerm; split_ifs <;> omega

lemma rainfallStep_eq (r : ℚ) (s : Int) : rainfallStep r s = s + claimRainfallTerm r := by
  unfold rainfallStep claimRainfallTerm; split_ifs <;> omega

lemma humidityStep_eq (h : ℚ) (s : Int) : humidityStep h s = s + claimHumidityTerm h := by
  unfold humidityStep claimHumidityTerm; split_ifs <;> omega

lemma trendStep_eq (t : String) (s : Int) : trendStep t s = s + claimTrendTerm t := by
  unfold trendStep claimTrendTerm; split_ifs <;> omega

lemma tempStep_eq (t : ℚ) (s : Int) : tempStep t s = s + claimTempTerm t := by
  unfold tempStep claimTempTerm; split_ifs <;> omega

lemma localFloodScore_eq_amendedScore (i : FloodRiskInput) :
    localFloodScore i = amendedScore i := by
  simp only [localFloodScore, amendedScore, distanceStep_eq, rainfallStep_eq,
    humidityStep_eq, trendStep_eq, tempStep_eq, zero_add]

/-- C1 (counterexample).  The claim's score formula compares the trend tag
literally, but the source lowercases it first: for
`{distance_cm: 100, rainfall_mm: 5, humidity: 0, temp: 10, trend: "Rising"}`
the code scores 3 (`'Medium'`) while the claimed formula scores 1 (which the
claim classifies `'Low'`). -/
theorem heuristic_score_raw_trend_counterexample :
    localFloodScore ⟨100, 5, 0, 10, "Rising"⟩ ≠ claimedScore ⟨100, 5, 0, 10, "Rising"⟩
    ∧ (computeLocalFloodRisk ⟨100, 5, 0, 10, "Rising"⟩ 0).riskLevel = "Medium"
    ∧ claimedScore ⟨100, 5, 0, 10, "Rising"⟩ < 3 := by
  refine ⟨?_, ?_, ?_⟩ <;> decide

/-- C1 (amended).  For every `RiskInput` the heuristic score equals the
claimed five-term sum with the trend tag lowercased before the
`'rising'`/`'falling'` comparison; `riskLevel` is `'High'` iff score ≥ 6,
`'Medium'` iff 3 ≤ score < 6, `'Low'` otherwise (identically in the client
and the server scorer); and the boundary contributions are
distance 50 → +2, 80 → +1, 81 → +0, rainfall 15 → +2, 30 → +3. -/
theorem heuristic_score_matches_amended_formula :
    ∀ (i : FloodRiskInput) (now : Int),
      localFloodScore i = amendedScore i
      ∧ ((computeLocalFloodRisk i now).riskLevel = "High" ↔ localFloodScore i ≥ 6)
      ∧ ((computeLocalFloodRisk i now).riskLevel = "Medium" ↔
          3 ≤ localFloodScore i ∧ localFloodScore i < 6)
      ∧ ((computeLocalFloodRisk i now).riskLevel = "Low" ↔ localFloodScore i < 3)
      ∧ (heuristicFloodRisk i).riskLevel = (computeLocalFloodRisk i now).riskLevel
      ∧ claimDistanceTerm 50 = 2 ∧ claimDistanceTerm 80 = 1 ∧ claimDistanceTerm 81 = 0
      ∧ claimRainfallTerm 15 = 2 ∧ claimRainfallTerm 30 = 3 := by
  intro i now
  refine ⟨localFloodScore_eq_amendedScore i, ?_, ?_, ?_, rfl, ?_, ?_, ?_, ?_, ?_⟩
  · rw [computeLocalFloodRisk_riskLevel]; exact floodRiskLevel_high_iff _
  · rw [computeLocalFloodRisk_riskLevel]; exact floodRiskLevel_medium_iff _
  · rw [computeLocalFloodRisk_riskLevel]; exact floodRiskLevel_low_iff _
  all_goals decide

/-- C5 (counterexample).  The client heuristic embeds `Date.now()` in
`predictionId`, so two invocations on the identical `RiskInput` at
different instants return different `RiskResult` records. -/
theorem local_risk_prediction_id_counterexample :
    computeLocalFloodRisk ⟨100, 0, 0, 10, "stable"⟩ 0
      ≠ computeLocalFloodRisk ⟨100, 0, 0, 10, "stable"⟩ 1 := by
  decide

/-- C5 (amended).  On identical `RiskInput`, `riskLevel` and `explanation`
are identical across invocations (they are pure functions of the input);
`predictionId` is `local-<Date.now()>` and therefore depends on the
invocation instant, not only on the input. -/
theorem local_risk_time_invariant_fields :
    ∀ (i : FloodRiskInput) (t₁ t₂ : Int),
      (computeLocalFloodRisk i t₁).riskLevel = (computeLocalFloodRisk i t₂).riskLevel
      ∧ (computeLocalFloodRisk i t₁).explanation = (computeLocalFloodRisk i t₂).explanation
      ∧ (computeLocalFloodRisk i t₁).predictionId = "local-" ++ toString t₁ := by
  intro i t₁ t₂
  exact ⟨rfl, rfl, rfl⟩

/-- C3.  The trend classification returns `'stable'` with no previous
height; otherwise `'rising'` iff `current > previous + 0.5`, `'falling'`
iff `current < previous - 0.5`, `'stable'` otherwise; with the three
deadband examples from the specification. -/
theorem classify_trend_deadband :
    ∀ (p c : ℚ),
      classifyTrend none c = "stable"
      ∧ (classifyTrend (some p) c = "rising" ↔ c > p + 1/2)
      ∧ (classifyTrend (some p) c = "falling" ↔ c < p - 1/2)
      ∧ (classifyTrend (some p) c = "stable" ↔ ¬c > p + 1/2 ∧ ¬c < p - 1/2)
      ∧ classifyTrend (some 100) (100.4 : ℚ) = "stable"
      ∧ classifyTrend (some 100) (100.6 : ℚ) = "rising"
      ∧ classifyTrend (some 100) (99.4 : ℚ) = "falling" := by
  intro p c
  refine ⟨rfl, ?_, ?_, ?_, ?_, ?_, ?_⟩
  · simp only [classifyTrend]; split_ifs with h1 h2 <;> simp_all
  · simp only [classifyTrend]; split_ifs with h1 h2 <;> simp_all
    linarith
  · simp only [classifyTrend]; split_ifs with h1 h2 <;> simp_all
  all_goals norm_num [classifyTrend]

/-! ## Severity ordinal of the dispatch effect (App.tsx lines 614–615) -/

/-- `levelToNumber`: `(level || '').toLowerCase()` mapped to 3 for
`critical`/`high`, 2 for `medium`/`warning`, 1 otherwise. -/
def levelToNumber (level : Option String) : Nat :=
  let normalizedLevel := jsToLower (level.getD "")
  if normalizedLevel = "critical" ∨ normalizedLevel = "high" then 3
  else if normalizedLevel = "medium" ∨ normalizedLevel = "warning" then 2
  else 1

/-- C9.  The severity ordinal is 3 iff the level tag lowercases to
`critical` or `high`, 2 iff it lowercases to `medium` or `warning`, and 1
for everything else — including an absent tag and arbitrary unrecognized
tags, which map silently to 1. -/
theorem level_ordinal_mapping :
    ∀ level : Option String,
      (levelToNumber level = 3 ↔
        (jsToLower (level.getD "") = "critical" ∨ jsToLower (level.getD "") = "high"))
      ∧ (levelToNumber level = 2 ↔
        (jsToLower (level.getD "") = "medium" ∨ jsToLower (level.getD "") = "warning"))
      ∧ (levelToNumber level = 1 ↔
        (¬(jsToLower (level.getD "") = "critical" ∨ jsToLower (level.getD "") = "high")
          ∧ ¬(jsToLower (level.getD "") = "medium" ∨ jsToLower (level.getD "") = "warning")))
      ∧ levelToNumber none = 1
      ∧ levelToNumber (some "WARNING") = 2
      ∧ levelToNumber (some "catastrophic") = 1 := by
  intro level
  refine ⟨?_, ?_, ?_, by decide, by decide, by decide⟩ <;>
  · simp only [levelToNumber]
    generalize jsToLower (level.getD "") = x
    by_cases h1 : x = "critical" <;> by_cases h2 : x = "high" <;>
      by_cases h3 : x = "medium" <;> by_cases h4 : x = "warning" <;>
      simp_all

/-! ## Remote risk-output validation (functions source `callGemini`,
lines 276–330, and `predictFloodRisk`, lines 398–427)

`callGemini` returns `null` whenever the key is missing, the HTTP status is
not OK, the extracted text is empty, or `JSON.parse` throws; those stages
are modelled by the `Option` on `GeminiRiskPayload`.  After a successful
parse the typed payload is validated by the code embedded in
`parseGeminiRisk`. -/

/-- The result of `JSON.parse(text) as { riskLevel?: string; explanation?: string }`. -/
structure GeminiRiskPayload where
  riskLevel : Option String
  explanation : Option String
deriving DecidableEq

/-- The trailing validation of `callGemini`:
`const riskLevel = (parsed.riskLevel ?? "").trim()`, reject unless the
trimmed value is exactly `Low`/`Medium`/`High`, and default the trimmed
explanation. -/
def parseGeminiRisk (parsed : GeminiRiskPayload) : Option RiskOutcome :=
  let riskLevel := jsTrim (parsed.riskLevel.getD "")
  if riskLevel ≠ "Low" ∧ riskLevel ≠ "Medium" ∧ riskLevel ≠ "High" then none
  else
    let explanation :=
      (parsed.explanation.map jsTrim).getD ("AI indicates " ++ riskLevel ++ " flood risk.")
    some { riskLevel := riskLevel, explanation := explanation }

/-- `predictFloodRisk`'s composition (functions source lines 406–413):
`const result = geminiResult ?? heuristicFloodRisk(inputs)`. -/
def predictFloodRiskResult (gemini : Option GeminiRiskPayload) (inputs : FloodRiskInput) :
    RiskOutcome :=
  match gemini.bind parseGeminiRisk with
  | some result => result
  | none => heuristicFloodRisk inputs

lemma parseGeminiRisk_riskLevel_mem (p : GeminiRiskPayload) (r : RiskOutcome)
    (h : parseGeminiRisk p = some r) :
    r.riskLevel = "Low" ∨ r.riskLevel = "Medium" ∨ r.riskLevel = "High" := by
  simp only [parseGeminiRisk] at h
  split_ifs at h with hc
  simp only [ne_eq, not_and_or, not_not] at hc
  injection h with h
  subst h
  simpa using hc

lemma parseGeminiRisk_rejects (p : GeminiRiskPayload)
    (h1 : jsTrim (p.riskLevel.getD "") ≠ "Low")
    (h2 : jsTrim (p.riskLevel.getD "") ≠ "Medium")
    (h3 : jsTrim (p.riskLevel.getD "") ≠ "High") :
    parseGeminiRisk p = none := by
  unfold parseGeminiRisk
  rw [if_pos ⟨h1, h2, h3⟩]

/-- C2 (counterexample).  `callGemini` trims the parsed `riskLevel` before
the three-value check, so a parsed output whose `riskLevel` is `' High'` —
a string equal to none of the three allowed values — is *not* rejected:
the surfaced result is the trimmed remote output, not the heuristic's. -/
theorem remote_untrimmed_level_counterexample :
    (" High" ≠ "Low" ∧ " High" ≠ "Medium" ∧ " High" ≠ "High")
    ∧ predictFloodRiskResult (some ⟨some " High", some "Cloud model verdict"⟩)
        ⟨100, 0, 50, 10, "stable"⟩
        ≠ heuristicFloodRisk ⟨100, 0, 50, 10, "stable"⟩
    ∧ (predictFloodRiskResult (some ⟨some " High", some "Cloud model verdict"⟩)
        ⟨100, 0, 50, 10, "stable"⟩).riskLevel = "High" := by
  refine ⟨by decide, by decide, by decide⟩

/-- C2 (amended).  The composed risk operation always surfaces a
`riskLevel` among exactly `'Low'`, `'Medium'`, `'High'`; and whenever the
parsed remote `riskLevel`, *after trimming surrounding whitespace*, is not
one of the three, the remote output is rejected and the heuristic result is
returned instead. -/
theorem predict_risk_level_validated :
    ∀ (gemini : Option GeminiRiskPayload) (i : FloodRiskInput),
      ((predictFloodRiskResult gemini i).riskLevel = "Low"
        ∨ (predictFloodRiskResult gemini i).riskLevel = "Medium"
        ∨ (predictFloodRiskResult gemini i).riskLevel = "High")
      ∧ ∀ p : GeminiRiskPayload, gemini = some p →
          jsTrim (p.riskLevel.getD "") ≠ "Low" →
          jsTrim (p.riskLevel.getD "") ≠ "Medium" →
          jsTrim (p.riskLevel.getD "") ≠ "High" →
          predictFloodRiskResult gemini i = heuristicFloodRisk i := by
  intro gemini i
  constructor
  · match hg : gemini with
    | none =>
      rw [show predictFloodRiskResult none i = heuristicFloodRisk i from rfl,
        heuristicFloodRisk_riskLevel]
      exact floodRiskLevel_mem _
    | some p =>
      unfold predictFloodRiskResult
      match hp : parseGeminiRisk p with
      | none =>
        rw [show (some p).bind parseGeminiRisk = parseGeminiRisk p from rfl, hp,
          heuristicFloodRisk_riskLevel]
        exact floodRiskLevel_mem _
      | some r =>
        rw [show (some p).bind parseGeminiRisk = parseGeminiRisk p from rfl, hp]
        exact parseGeminiRisk_riskLevel_mem p r hp
  · intro p hg h1 h2 h3
    subst hg
    unfold predictFloodRiskResult
    rw [show (some p).bind parseGeminiRisk = parseGeminiRisk p from rfl,
      parseGeminiRisk_rejects p h1 h2 h3]

/-- Witness for C2's amended theorem at `riskLevel = 'Severe'`. -/
theorem predict_risk_level_validated_witness :
    predictFloodRiskResult (some ⟨some "Severe", some "Evacuate now"⟩) ⟨10, 40, 95, 0, "rising"⟩
      = heuristicFloodRisk ⟨10, 40, 95, 0, "rising"⟩ :=
  (predict_risk_level_validated (some ⟨some "Severe", some "Evacuate now"⟩)
      ⟨10, 40, 95, 0, "rising"⟩).2
    ⟨some "Severe", some "Evacuate now"⟩ rfl (by decide) (by decide) (by decide)

/-! ## Summary composer (App.tsx `buildLocalSummary`, lines 100–114, and
functions source `fallbackSummary`, lines 385–396)

The client renders each alert timestamp with `toLocaleTimeString`, an
environment-determined formatter; it is modelled as an explicit `fmtTime`
parameter. -/

/-- `currentLevel: 1 | 2 | 3`. -/
abbrev SummaryLevel := {n : ℕ // 1 ≤ n ∧ n ≤ 3}

/-- One entry of `lastAlerts`. -/
structure SummaryAlert where
  sensor : String
  level : String
  value : Option ℚ
  timestamp : Int
deriving DecidableEq

/-- `AlertSummaryRequest` from `services/ai.ts` / the functions source. -/
structure AlertSummaryRequest where
  currentLevel : SummaryLevel
  waterHeight : ℚ
  distance : ℚ
  rainfall : ℚ
  lastAlerts : List SummaryAlert
deriving DecidableEq

/-- The client `levelDescriptions` record (App.tsx lines 57–61), indexed by
the severity ordinal. -/
def levelDescriptions (level : SummaryLevel) : String :=
  if level.val = 1 then "Conditions look safe right now."
  else if level.val = 2 then "Conditions are shifting, please stay alert."
  else "Immediate action recommended—conditions are dangerous."

/-- The server `levelDescriptions` record inside `fallbackSummary`. -/
def serverLevelDescriptions (level : SummaryLevel) : String :=
  if level.val = 1 then "Situation stable, continue monitoring."
  else if level.val = 2 then "Moderate flood indicators, prepare mitigation steps."
  else "Critical flood indicators, enact emergency response now."

/-- The `alertLines` local of `buildLocalSummary`: the given alerts rendered
one per line. -/
def buildAlertLines (alerts : List SummaryAlert) (fmtTime : Int → String) : String :=
  String.intercalate "\n" (alerts.map fun alert =>
    let when := fmtTime alert.timestamp
    let reading := match alert.value with
      | some v => toString v
      | none => "n/a"
    "  - " ++ alert.sensor ++ " (" ++ alert.level ++ ") · " ++ reading ++ " at " ++ when)

/-- The `alertsSection` local of `buildLocalSummary`. -/
def buildAlertsSection (alertLines : String) : String :=
  if alertLines.length > 0 then "- Recent alerts:\n" ++ alertLines
  else "- Recent alerts: none reported"

/-- `buildLocalSummary` (App.tsx lines 100–114). -/
def buildLocalSummary (payload : AlertSummaryRequest) (fmtTime : Int → String) : String :=
  let headline := levelDescriptions payload.currentLevel
  let alerts := payload.lastAlerts.take 3
  let alertLines := buildAlertLines alerts fmtTime
  let alertsSection := buildAlertsSection alertLines
  "**" ++ headline ++ "**\n\n- Water height: " ++ toString payload.waterHeight ++
    " cm (sensor gap " ++ toString payload.distance ++ " cm)\n- Rainfall last hour: " ++
    toString payload.rainfall ++ " mm\n" ++ alertsSection ++
    "\n\n_Local assistant estimate while cloud AI reconnects._"

/-- The `alerts` local of the server `fallbackSummary`: first 3 alerts as
`sensor (level)`, comma-joined. -/
def fallbackAlertList (alerts : List SummaryAlert) : String :=
  String.intercalate ", " (alerts.map fun alert => alert.sensor ++ " (" ++ alert.level ++ ")")

/-- `fallbackSummary` (functions source lines 385–396). -/
def fallbackSummary (request : AlertSummaryRequest) : String :=
  let headline := serverLevelDescriptions request.currentLevel
  let alerts := fallbackAlertList (request.lastAlerts.take 3)
  "**" ++ headline ++ "**\n\n- Water height: " ++ toString request.waterHeight ++
    " cm at sensor distance " ++ toString request.distance ++ " cm\n- Rainfall last hour: " ++
    toString request.rainfall ++ " mm\n- Recent alerts: " ++
    (if alerts = "" then "No recent alerts" else alerts)

/-- C8.  Both local fallback summaries begin with a markdown-bold headline
chosen by the `currentLevel` ordinal, and render at most the first 3 entries
of `lastAlerts`: the output is unchanged when `lastAlerts` is truncated to
its first 3 entries, whatever its length. -/
theorem summary_headline_and_top3 :
    ∀ (req : AlertSummaryRequest) (fmtTime : Int → String),
      (∃ rest, buildLocalSummary req fmtTime
        = "**" ++ levelDescriptions req.currentLevel ++ "**" ++ rest)
      ∧ buildLocalSummary req fmtTime
          = buildLocalSummary { req with lastAlerts := req.lastAlerts.take 3 } fmtTime
      ∧ (∃ rest, fallbackSummary req
        = "**" ++ serverLevelDescriptions req.currentLevel ++ "**" ++ rest)
      ∧ fallbackSummary req = fallbackSummary { req with lastAlerts := req.lastAlerts.take 3 } := by
  intro req fmtTime
  refine ⟨⟨"\n\n- Water height: " ++ toString req.waterHeight ++
      " cm (sensor gap " ++ toString req.distance ++ " cm)\n- Rainfall last hour: " ++
      toString req.rainfall ++ " mm\n" ++
      buildAlertsSection (buildAlertLines (req.lastAlerts.take 3) fmtTime) ++
      "\n\n_Local assistant estimate while cloud AI reconnects._", ?_⟩, ?_,
    ⟨"\n\n- Water height: " ++ toString req.waterHeight ++
      " cm at sensor distance " ++ toString req.distance ++ " cm\n- Rainfall last hour: " ++
      toString req.rainfall ++ " mm\n- Recent alerts: " ++
      (if fallbackAlertList (req.lastAlerts.take 3) = "" then "No recent alerts"
        else fallbackAlertList (req.lastAlerts.take 3)), ?_⟩, ?_⟩
  · simp only [buildLocalSummary]
    rw [show ("**\n\n- Water height: " : String) = "**" ++ "\n\n- Water height: " from rfl]
    simp only [String.append_assoc]
  · simp only [buildLocalSummary, List.take_take, min_self]
  · simp only [fallbackSummary]
    rw [show ("**\n\n- Water height: " : String) = "**" ++ "\n\n- Water height: " from rfl]
    simp only [String.append_assoc]
  · simp only [fallbackSummary, List.take_take, min_self]

/-- C10.  On an empty `lastAlerts` both local fallback summaries stay
well-formed: the recent-alerts section degenerates to the explicit
placeholder (`- Recent alerts: none reported` in the client template,
`Recent alerts: No recent alerts` in the server fallback) and the rest of
the template is unchanged. -/
theorem summary_empty_alerts_placeholder :
    ∀ (level : SummaryLevel) (wh d r : ℚ) (fmtTime : Int → String),
      buildLocalSummary ⟨level, wh, d, r, []⟩ fmtTime
        = "**" ++ levelDescriptions level ++ "**\n\n- Water height: " ++ toString wh ++
          " cm (sensor gap " ++ toString d ++ " cm)\n- Rainfall last hour: " ++ toString r ++
          " mm\n" ++ "- Recent alerts: none reported" ++
          "\n\n_Local assistant estimate while cloud AI reconnects._"
      ∧ fallbackSummary ⟨level, wh, d, r, []⟩
        = "**" ++ serverLevelDescriptions level ++ "**\n\n- Water height: " ++ toString wh ++
          " cm at sensor distance " ++ toString d ++ " cm\n- Rainfall last hour: " ++
          toString r ++ " mm\n- Recent alerts: " ++ "No recent alerts" := by
  intro level wh d r fmtTime
  exact ⟨rfl, rfl⟩

/-! ## Alert dedup/dispatch loop (App.tsx dispatch effect, lines 542–657)

Each invocation of the effect receives the full current batch of
`AlertDocument`s plus the current weather snapshot; the mutable refs
`processedFloodAlerts` and `lastWaterHeightRef` are threaded as an explicit
`DispatchState`.  The effect's observable outputs — the `FloodRiskInput`
handed to the risk scorer and the `AlertSummaryRequest` handed to the
summary composer — are returned as an optional `DispatchAction` (`none`
when the effect returns without scoring/summarizing). -/

/-- `AlertDocument` fields read by the dispatch effect.  Absent or
non-numeric fields are `none`. -/
structure AlertDocument where
  id : Option String
  sensor : Option String
  level : Option String
  value : Option ℚ
  distance : Option ℚ
  waterHeight : Option ℚ
  height_cm : Option ℚ
  water_level_cm : Option ℚ
  distance_cm : Option ℚ
  sensor_gap_cm : Option ℚ
  timestamp : Option Int
deriving DecidableEq

/-- Dynamic field lookup `(document as Record<string, unknown>)[key]`
restricted to the keys the effect actually passes. -/
def fieldGet (document : AlertDocument) (key : String) : Option ℚ :=
  if key = "value" then document.value
  else if key = "waterHeight" then document.waterHeight
  else if key = "height_cm" then document.height_cm
  else if key = "water_level_cm" then document.water_level_cm
  else if key = "distance" then document.distance
  else if key = "distance_cm" then document.distance_cm
  else if key = "sensor_gap_cm" then document.sensor_gap_cm
  else none

/-- `pickNumericField` (App.tsx lines 116–124): first key holding a finite
number wins. -/
def pickNumericField (document : AlertDocument) : List String → Option ℚ
  | [] => none
  | key :: keys =>
    match fieldGet document key with
    | some v => some v
    | none => pickNumericField document keys

/-- Height alias precedence (App.tsx line 567). -/
def heightKeys : List String := ["value", "waterHeight", "height_cm", "water_level_cm"]

/-- Distance alias precedence (App.tsx line 568). -/
def distanceKeys : List String := ["distance", "distance_cm", "sensor_gap_cm"]

/-- `typeof alert.sensor === 'string' && alert.sensor.toLowerCase().includes('flood')`. -/
def sensorHasFlood (document : AlertDocument) : Bool :=
  match document.sensor with
  | some s => containsSub "flood".data (jsToLower s).data
  | none => false

/-- The candidate selection of App.tsx lines 543–546: first flood-tagged
record, else first record with numeric `distance` and `value`, else the
first record, else none. -/
def selectFloodCandidate (alerts : List AlertDocument) : Option AlertDocument :=
  match alerts.find? sensorHasFlood with
  | some a => some a
  | none =>
    match alerts.find? (fun a => a.distance.isSome && a.value.isSome) with
    | some a => some a
    | none => alerts.head?

/-- The composite fallback key `${sensor ?? 'sensor'}-${millis}` of App.tsx
lines 552–560; a record with no timestamp stamps `Date.now()` (`now`). -/
def compositeKey (document : AlertDocument) (now : Int) : String :=
  (document.sensor.getD "sensor") ++ "-" ++ toString (document.timestamp.getD now)

/-- The per-record dedup key: the id when present and non-empty, else the
composite key. -/
def alertKey (document : AlertDocument) (now : Int) : String :=
  match document.id with
  | some i => if i = "" then compositeKey document now else i
  | none => compositeKey document now

/-- The weather fields the dispatch effect reads. -/
structure WeatherSnapshot where
  rain1h : Option ℚ
  rain3h : Option ℚ
  humidity : ℚ
  temperature : ℚ
deriving DecidableEq

/-- The dispatch effect's mutable refs: `processedFloodAlerts` and
`lastWaterHeightRef`. -/
structure DispatchState where
  processed : List String
  lastWaterHeight : Option ℚ
deriving DecidableEq

/-- The observable outputs of one processed alert: the risk payload sent to
the scorer and the summary request sent to the composer. -/
structure DispatchAction where
  riskInput : FloodRiskInput
  summaryRequest : AlertSummaryRequest
deriving DecidableEq

/-- `lastAlertsPayload` (App.tsx lines 617–627): the 5 most recent records. -/
def buildLastAlerts (alerts : List AlertDocument) (now : Int) : List SummaryAlert :=
  (alerts.take 5).map fun alert =>
    { sensor := match alert.sensor with
        | some s => if s = "" then "unknown" else s
        | none => "unknown"
      level := match alert.level with
        | some s => if s = "" then "info" else s
        | none => "info"
      value := alert.value
      timestamp := alert.timestamp.getD now }

lemma levelToNumber_bounds (level : Option String) :
    1 ≤ levelToNumber level ∧ levelToNumber level ≤ 3 := by
  simp only [levelToNumber]
  split_ifs <;> simp

/-- One invocation of the dispatch effect (App.tsx lines 542–657) as a
state transition. -/
def dispatchStep (state : DispatchState) (alerts : List AlertDocument)
    (weather : Option WeatherSnapshot) (now : Int) : DispatchState × Option DispatchAction :=
  match selectFloodCandidate alerts with
  | none => (state, none)
  | some cand =>
    let key := alertKey cand now
    if key ∈ state.processed then (state, none)
    else
      match pickNumericField cand heightKeys, pickNumericField cand distanceKeys with
      | some waterHeight, some distance =>
        let rainfall := ((weather.bind WeatherSnapshot.rain1h).orElse
          (fun _ => weather.bind WeatherSnapshot.rain3h)).getD 0
        let humidity := (weather.map WeatherSnapshot.humidity).getD 0
        let temp := (weather.map WeatherSnapshot.temperature).getD 0
        let trend := classifyTrend state.lastWaterHeight waterHeight
        let riskInput : FloodRiskInput :=
          { distance_cm := distance, rainfall_mm := rainfall, humidity := humidity,
            temp := temp, trend := trend }
        let summaryRequest : AlertSummaryRequest :=
          { currentLevel := ⟨levelToNumber cand.level, levelToNumber_bounds cand.level⟩,
            waterHeight := waterHeight, distance := distance, rainfall := rainfall,
            lastAlerts := buildLastAlerts alerts now }
        ({ processed := key :: state.processed, lastWaterHeight := some waterHeight },
          some { riskInput := riskInput, summaryRequest := summaryRequest })
      | _, _ => ({ state with processed := key :: state.processed }, none)

/-- Fold the dispatch effect over successive batches, counting the
invocations that scored/summarized. -/
def runDispatch (state : DispatchState) (batches : List (List AlertDocument))
    (weather : Option WeatherSnapshot) (now : Int) : DispatchState × Nat :=
  match batches with
  | [] => (state, 0)
  | b :: rest =>
    let step := dispatchStep state b weather now
    let restRun := runDispatch step.1 rest weather now
    (restRun.1, (if step.2.isSome then 1 else 0) + restRun.2)

lemma dispatchStep_skip (s : DispatchState) (b : List AlertDocument)
    (w : Option WeatherSnapshot) (now : Int) (cand : AlertDocument)
    (hsel : selectFloodCandidate b = some cand)
    (hmem : alertKey cand now ∈ s.processed) :
    dispatchStep s b w now = (s, none) := by
  unfold dispatchStep
  rw [hsel]
  simp [hmem]

lemma dispatchStep_mono (s : DispatchState) (b : List AlertDocument)
    (w : Option WeatherSnapshot) (now : Int) :
    s.processed ⊆ (dispatchStep s b w now).1.processed := by
  intro k hk
  unfold dispatchStep
  split
  · exact hk
  · dsimp only
    split_ifs with hmem
    · exact hk
    · split
      · exact List.mem_cons_of_mem _ hk
      · exact List.mem_cons_of_mem _ hk

lemma dispatchStep_fires (s : DispatchState) (b : List AlertDocument)
    (w : Option WeatherSnapshot) (now : Int) (cand : AlertDocument)
    (hsel : selectFloodCandidate b = some cand)
    (hmem : alertKey cand now ∉ s.processed)
    (hh : (pickNumericField cand heightKeys).isSome)
    (hd : (pickNumericField cand distanceKeys).isSome) :
    (dispatchStep s b w now).2.isSome
      ∧ alertKey cand now ∈ (dispatchStep s b w now).1.processed := by
  obtain ⟨height, hh⟩ := Option.isSome_iff_exists.mp hh
  obtain ⟨dist, hd⟩ := Option.isSome_iff_exists.mp hd
  unfold dispatchStep
  rw [hsel]
  simp [hmem, hh, hd]

lemma dispatchStep_malformed (s : DispatchState) (b : List AlertDocument)
    (w : Option WeatherSnapshot) (now : Int) (cand : AlertDocument)
    (hsel : selectFloodCandidate b = some cand)
    (hmem : alertKey cand now ∉ s.processed)
    (hmal : pickNumericField cand heightKeys = none
      ∨ pickNumericField cand distanceKeys = none) :
    dispatchStep s b w now
      = ({ processed := alertKey cand now :: s.processed,
           lastWaterHeight := s.lastWaterHeight }, none) := by
  unfold dispatchStep
  rw [hsel]
  rcases hmal with hmal | hmal
  · simp [hmem, hmal]
  · cases hh : pickNumericField cand heightKeys with
    | none => simp [hmem, hh]
    | some v => simp [hmem, hh, hmal]

lemma runDispatch_skip (b : List AlertDocument) (w : Option WeatherSnapshot)
    (now : Int) (cand : AlertDocument) (hsel : selectFloodCandidate b = some cand) :
    ∀ (n : ℕ) (s : DispatchState), alertKey cand now ∈ s.processed →
      runDispatch s (List.replicate n b) w now = (s, 0) := by
  intro n
  induction n with
  | zero => intro s _; rfl
  | succ m ih =>
    intro s hmem
    have hstep := dispatchStep_skip s b w now cand hsel hmem
    simp only [List.replicate_succ, runDispatch, hstep]
    rw [ih s hmem]
    simp

/-- C4.  The processed-key set only grows; a batch whose selected
candidate's key is already processed changes nothing and triggers nothing
(no scoring, no summarization, no trend update); and feeding the same batch
any number of additional times after the first triggers
scoring/summarization exactly once in total. -/
theorem dispatch_dedup_exactly_once :
    (∀ (s : DispatchState) (b : List AlertDocument) (w : Option WeatherSnapshot) (now : Int),
      s.processed ⊆ (dispatchStep s b w now).1.processed)
    ∧ (∀ (s : DispatchState) (b : List AlertDocument) (w : Option WeatherSnapshot)
        (now : Int) (cand : AlertDocument), selectFloodCandidate b = some cand →
        alertKey cand now ∈ s.processed → dispatchStep s b w now = (s, none))
    ∧ (∀ (s : DispatchState) (b : List AlertDocument) (w : Option WeatherSnapshot)
        (now : Int) (cand : AlertDocument) (n : ℕ), selectFloodCandidate b = some cand →
        alertKey cand now ∉ s.processed →
        (pickNumericField cand heightKeys).isSome →
        (pickNumericField cand distanceKeys).isSome →
        (runDispatch s (List.replicate (n + 1) b) w now).2 = 1) := by
  refine ⟨dispatchStep_mono, dispatchStep_skip, ?_⟩
  intro s b w now cand n hsel hmem hh hd
  obtain ⟨hfire, hkey⟩ := dispatchStep_fires s b w now cand hsel hmem hh hd
  simp only [List.replicate_succ, runDispatch]
  rw [runDispatch_skip b w now cand hsel n _ hkey]
  simp [hfire]

/-- Witness for C4 at a concrete flood alert fed three times. -/
theorem dispatch_dedup_exactly_once_witness :
    (runDispatch ⟨[], none⟩ (List.replicate 3
        [⟨some "alert-1", some "flood-sensor", some "warning", some 30, some 40,
          none, none, none, none, none, some 1000⟩]) none 0).2 = 1 :=
  dispatch_dedup_exactly_once.2.2 ⟨[], none⟩
    [⟨some "alert-1", some "flood-sensor", some "warning", some 30, some 40,
      none, none, none, none, none, some 1000⟩] none 0
    ⟨some "alert-1", some "flood-sensor", some "warning", some 30, some 40,
      none, none, none, none, none, some 1000⟩ 2
    (by decide) (by decide) (by decide) (by decide)

/-- C7.  A selected candidate with no resolvable height or no resolvable
distance is marked processed and the effect stops — no scoring, no
summarization, no trend update — and a later batch selecting the same
record is skipped entirely. -/
theorem malformed_alert_marked_and_skipped :
    ∀ (s : DispatchState) (b : List AlertDocument) (w : Option WeatherSnapshot)
      (now : Int) (cand : AlertDocument), selectFloodCandidate b = some cand →
      alertKey cand now ∉ s.processed →
      (pickNumericField cand heightKeys = none ∨ pickNumericField cand distanceKeys = none) →
      dispatchStep s b w now
          = ({ processed := alertKey cand now :: s.processed,
               lastWaterHeight := s.lastWaterHeight }, none)
      ∧ dispatchStep
            { processed := alertKey cand now :: s.processed,
              lastWaterHeight := s.lastWaterHeight } b w now
          = ({ processed := alertKey cand now :: s.processed,
               lastWaterHeight := s.lastWaterHeight }, none) := by
  intro s b w now cand hsel hmem hmal
  exact ⟨dispatchStep_malformed s b w now cand hsel hmem hmal,
    dispatchStep_skip _ b w now cand hsel (List.mem_cons_self _ _)⟩

/-- Witness for C7 at a concrete flood alert with no distance field. -/
theorem malformed_alert_marked_and_skipped_witness :
    dispatchStep ⟨[], some 25⟩
        [⟨some "alert-2", some "Flood", some "info", some 30, none,
          none, none, none, none, none, some 2000⟩] none 0
      = (⟨["alert-2"], some 25⟩, none) :=
  (malformed_alert_marked_and_skipped ⟨[], some 25⟩
    [⟨some "alert-2", some "Flood", some "info", some 30, none,
      none, none, none, none, none, some 2000⟩] none 0
    ⟨some "alert-2", some "Flood", some "info", some 30, none,
      none, none, none, none, none, some 2000⟩
    (by decide) (by decide) (by decide)).1

/-! ## Code-fence stripping (functions source `sanitizeJsonBlock`,
lines 155–162)

The source trims the raw text, and when it both starts and ends with a
triple-backtick fence marker applies two regex replaces and trims again.
The first replace removes a case-insensitive 7-character "json"-tagged
opening fence and any following whitespace; the second removes a closing
fence; an unmatched replace is the identity.  Modelled on character
lists. -/

/-- The fence marker (three backticks). -/
def fence : List Char := "```".data

/-- The opening fence with the `json` language tag. -/
def fenceJson : List Char := "```json".data

/-- The first replace: drop a case-insensitive opening fence tagged `json`
plus following whitespace, when present. -/
def stripOpenJson (l : List Char) : List Char :=
  if (l.take 7).map Char.toLower = fenceJson then (l.drop 7).dropWhile wsChar else l

/-- The second replace: drop a trailing fence marker, when present. -/
def stripClose (l : List Char) : List Char :=
  if fence.isSuffixOf l then l.take (l.length - 3) else l

/-- `sanitizeJsonBlock` (functions source lines 155–162). -/
def sanitizeJsonBlock (raw : List Char) : List Char :=
  if raw = [] then []
  else
    let trimmed := trimChars raw
    if fence.isPrefixOf trimmed && fence.isSuffixOf trimmed then
      trimChars (stripClose (stripOpenJson trimmed))
    else trimmed

/-! ### Trim lemmas -/

lemma dropWhile_append' (p : Char → Bool) (a b : List Char) :
    (a ++ b).dropWhile p
      = if a.dropWhile p = [] then b.dropWhile p else a.dropWhile p ++ b := by
  induction a with
  | nil => simp
  | cons c t ih =>
    by_cases h : p c = true
    · simpa [List.dropWhile_cons, h] using ih
    · simp [List.dropWhile_cons, h]

lemma trimLeft_cons_nonws (c : Char) (l : List Char) (h : wsChar c = false) :
    trimLeftChars (c :: l) = c :: l := by
  simp [trimLeftChars, List.dropWhile_cons, h]

lemma trimLeft_cons_append (c : Char) (t rest : List Char) (h : wsChar c = false) :
    trimLeftChars ((c :: t) ++ rest) = (c :: t) ++ rest := by
  rw [List.cons_append, trimLeft_cons_nonws c _ h, ← List.cons_append]

lemma dropWhile_head_nonws {s : List Char} {c : Char} {r : List Char}
    (h : List.dropWhile wsChar s = c :: r) : wsChar c = false := by
  induction s with
  | nil => simp at h
  | cons d t ih =>
    rw [List.dropWhile_cons] at h
    split_ifs at h with hd
    · exact ih h
    · injection h with h1 _
      subst h1
      simpa using hd

lemma trimRight_append (a b : List Char) :
    trimRightChars (a ++ b)
      = if trimRightChars b = [] then trimRightChars a else a ++ trimRightChars b := by
  unfold trimRightChars
  rw [List.reverse_append, dropWhile_append']
  by_cases h : List.dropWhile wsChar b.reverse = []
  · rw [if_pos h, if_pos (by rw [h, List.reverse_nil])]
  · rw [if_neg h, if_neg (fun hc => h (by simpa using congrArg List.reverse hc)),
      List.reverse_append, List.reverse_reverse]

lemma trimRight_append_fixed (a e : List Char) (he : trimRightChars e = e) (hne : e ≠ []) :
    trimRightChars (a ++ e) = a ++ e := by
  rw [trimRight_append, if_neg (by rw [he]; exact hne), he]

/-! ### The three fence shapes -/

lemma sanitize_json_fenced (s : List Char) :
    sanitizeJsonBlock ("```json\n".data ++ s ++ "\n```".data) = trimChars s := by
  have hne : ("```json\n".data ++ s ++ "\n```".data) ≠ [] := by simp
  have hEfix : trimRightChars ("\n```".data) = "\n```".data := by decide
  have hEne : ("\n```".data : List Char) ≠ [] := by decide
  have htrim : trimChars ("```json\n".data ++ s ++ "\n```".data)
      = "```json\n".data ++ s ++ "\n```".data := by
    unfold trimChars
    rw [List.append_assoc, show "```json\n".data = ('\x60' :: "``json\n".data) from rfl,
      trimLeft_cons_append _ _ _ (by decide), ← List.append_assoc,
      trimRight_append_fixed _ _ hEfix hEne]
  have hpre : fence.isPrefixOf ("```json\n".data ++ s ++ "\n```".data) = true := by
    rw [List.isPrefixOf_iff_prefix,
      show ("```json\n".data ++ s ++ "\n```".data)
        = fence ++ ("json\n".data ++ (s ++ "\n```".data)) by
          rw [show "```json\n".data = fence ++ "json\n".data from by decide]
          simp [List.append_assoc]]
    exact List.prefix_append _ _
  have hsuf : fence.isSuffixOf ("```json\n".data ++ s ++ "\n```".data) = true := by
    rw [List.isSuffixOf_iff_suffix,
      show ("```json\n".data ++ s ++ "\n```".data)
        = (("```json\n".data ++ s) ++ "\n".data) ++ fence by
          rw [show "\n```".data = "\n".data ++ fence from by decide]
          simp [List.append_assoc]]
    exact List.suffix_append _ _
  have hdrop : ("```json\n".data ++ s ++ "\n```".data).drop 7
      = '\n' :: (s ++ "\n```".data) := by
    rw [List.append_assoc, List.drop_append_eq_append_drop,
      show ("```json\n".data).drop 7 = ['\n'] from rfl,
      show ("```json\n".data).length = 8 from rfl]
    simp
  have htake : (("```json\n".data ++ s ++ "\n```".data).take 7).map Char.toLower
      = fenceJson := by
    rw [List.append_assoc, List.take_append_eq_append_take,
      show ("```json\n".data).take 7 = "```json".data from rfl,
      show ("```json\n".data).length = 8 from rfl]
    simp
    decide
  have hopen : stripOpenJson ("```json\n".data ++ s ++ "\n```".data)
      = List.dropWhile wsChar (s ++ "\n```".data) := by
    unfold stripOpenJson
    rw [if_pos htake, hdrop, List.dropWhile_cons_of_pos (by decide)]
  unfold sanitizeJsonBlock
  rw [if_neg hne]
  simp only [htrim, hpre, hsuf, Bool.and_self, if_true]
  rw [hopen, dropWhile_append']
  cases hdw : List.dropWhile wsChar s with
  | nil =>
    rw [if_pos rfl, show List.dropWhile wsChar ("\n```".data) = fence from by decide,
      show stripClose fence = [] from by decide]
    unfold trimChars trimLeftChars
    rw [hdw]
    rfl
  | cons c r =>
    have hc : wsChar c = false := dropWhile_head_nonws hdw
    rw [if_neg (by simp)]
    have hsufB : fence.isSuffixOf ((c :: r) ++ "\n```".data) = true := by
      rw [List.isSuffixOf_iff_suffix,
        show ((c :: r) ++ "\n```".data) = (((c :: r) ++ "\n".data) ++ fence) by
          rw [show "\n```".data = "\n".data ++ fence from by decide]
          simp [List.append_assoc]]
      exact List.suffix_append _ _
    have hclose : stripClose ((c :: r) ++ "\n```".data) = (c :: r) ++ ['\n'] := by
      unfold stripClose
      rw [if_pos hsufB,
        show ((c :: r) ++ "\n```".data).length - 3 = ((c :: r) ++ ['\n']).length by
          simp [List.length_append],
        show ((c :: r) ++ "\n```".data) = (((c :: r) ++ ['\n']) ++ fence) by
          rw [show "\n```".data = ['\n'] ++ fence from by decide]
          simp [List.append_assoc],
        List.take_left' rfl]
    rw [hclose]
    unfold trimChars
    rw [show trimLeftChars s = c :: r from hdw,
      trimLeft_cons_append _ _ _ hc, trimRight_append, if_pos (by decide)]

lemma sanitize_bare_fenced (s : List Char) :
    sanitizeJsonBlock ("```\n".data ++ s ++ "\n```".data)
      = trimChars ("```\n".data ++ s) := by
  have hne : ("```\n".data ++ s ++ "\n```".data) ≠ [] := by simp
  have hEfix : trimRightChars ("\n```".data) = "\n```".data := by decide
  have hEne : ("\n```".data : List Char) ≠ [] := by decide
  have htrim : trimChars ("```\n".data ++ s ++ "\n```".data)
      = "```\n".data ++ s ++ "\n```".data := by
    unfold trimChars
    rw [List.append_assoc, show "```\n".data = ('\x60' :: "``\n".data) from rfl,
      trimLeft_cons_append _ _ _ (by decide), ← List.append_assoc,
      trimRight_append_fixed _ _ hEfix hEne]
  have hpre : fence.isPrefixOf ("```\n".data ++ s ++ "\n```".data) = true := by
    rw [List.isPrefixOf_iff_prefix,
      show ("```\n".data ++ s ++ "\n```".data)
        = fence ++ ("\n".data ++ (s ++ "\n```".data)) by
          rw [show "```\n".data = fence ++ "\n".data from by decide]
          simp [List.append_assoc]]
    exact List.prefix_append _ _
  have hsuf : fence.isSuffixOf ("```\n".data ++ s ++ "\n```".data) = true := by
    rw [List.isSuffixOf_iff_suffix,
      show ("```\n".data ++ s ++ "\n```".data)
        = (("```\n".data ++ s) ++ "\n".data) ++ fence by
          rw [show "\n```".data = "\n".data ++ fence from by decide]
          simp [List.append_assoc]]
    exact List.suffix_append _ _
  have htake : (("```\n".data ++ s ++ "\n```".data).take 7).map Char.toLower
      ≠ fenceJson := by
    rw [List.append_assoc, show "```\n".data = '\x60' :: '\x60' :: '\x60' :: '\n' :: [] from rfl]
    simp only [List.cons_append, List.nil_append, List.take_succ_cons, List.map_cons]
    rw [show Char.toLower '\x60' = '\x60' from by decide,
      show Char.toLower '\n' = '\n' from by decide,
      show fenceJson = '\x60' :: '\x60' :: '\x60' :: 'j' :: "son".data from by decide]
    simp
  have hopen : stripOpenJson ("```\n".data ++ s ++ "\n```".data)
      = "```\n".data ++ s ++ "\n```".data := by
    unfold stripOpenJson
    rw [if_neg htake]
  have hclose : stripClose ("```\n".data ++ s ++ "\n```".data)
      = ("```\n".data ++ s) ++ ['\n'] := by
    unfold stripClose
    rw [if_pos hsuf,
      show ("```\n".data ++ s ++ "\n```".data).length - 3
          = (("```\n".data ++ s) ++ ['\n']).length by
        simp [List.length_append],
      show ("```\n".data ++ s ++ "\n```".data) = ((("```\n".data ++ s) ++ ['\n']) ++ fence) by
        rw [show "\n```".data = ['\n'] ++ fence from by decide]
        simp [List.append_assoc],
      List.take_left' rfl]
  unfold sanitizeJsonBlock
  rw [if_neg hne]
  simp only [htrim, hpre, hsuf, Bool.and_self, if_true]
  rw [hopen, hclose]
  unfold trimChars
  rw [show "```\n".data = ('\x60' :: "``\n".data) from rfl,
    trimLeft_cons_append _ _ _ (by decide),
    show (('\x60' :: "``\n".data) ++ s) ++ ['\n'] = ('\x60' :: "``\n".data) ++ (s ++ ['\n'])
      from List.append_assoc _ _ _,
    trimLeft_cons_append _ _ _ (by decide), ← List.append_assoc,
    trimRight_append, trimRight_append, if_pos (by decide)]

lemma sanitize_unfenced (s : List Char)
    (h : (fence.isPrefixOf (trimChars s) && fence.isSuffixOf (trimChars s)) = false) :
    sanitizeJsonBlock s = trimChars s := by
  unfold sanitizeJsonBlock
  by_cases h0 : s = []
  · subst h0; rfl
  · rw [if_neg h0]
    simp [h]

/-- C6 (counterexample).  A payload fenced with *bare* triple backticks (no
`json` tag) keeps its opening fence: only `json`-tagged opening fences are
removed by the first replace, so `sanitizeJsonBlock` on the fenced `{}`
returns the fence-prefixed text, not the trimmed payload. -/
theorem fence_strip_counterexample :
    sanitizeJsonBlock ("```\n{}\n```".data) = "```\n{}".data
    ∧ "```\n{}".data ≠ trimChars ("{}".data) := by
  exact ⟨by decide, by decide⟩

/-- C6 (amended).  For every payload `s`: a `json`-tagged fence is fully
stripped, yielding the trimmed `s`; a bare fence loses only its *closing*
marker, yielding the trimmed concatenation of the opening fence line and
the payload; and an
input whose trimmed form does not both start and end with a fence is
returned trimmed unchanged. -/
theorem sanitize_fence_behaviour :
    ∀ s : List Char,
      sanitizeJsonBlock ("```json\n".data ++ s ++ "\n```".data) = trimChars s
      ∧ sanitizeJsonBlock ("```\n".data ++ s ++ "\n```".data)
          = trimChars ("```\n".data ++ s)
      ∧ ((fence.isPrefixOf (trimChars s) && fence.isSuffixOf (trimChars s)) = false →
          sanitizeJsonBlock s = trimChars s) := by
  intro s
  exact ⟨sanitize_json_fenced s, sanitize_bare_fenced s, sanitize_unfenced s⟩

/-- Witness for C6's amended theorem on a plain JSON payload. -/
theorem sanitize_fence_behaviour_witness :
    sanitizeJsonBlock (" \x7b\x22riskLevel\x22:\x22Low\x22\x7d ".data)
      = trimChars (" \x7b\x22riskLevel\x22:\x22Low\x22\x7d ".data) :=
  (sanitize_fence_behaviour (" \x7b\x22riskLevel\x22:\x22Low\x22\x7d ".data)).2.2 (by decide)

end FloodWatchr
